import Mathlib

/-!
Verification of the hermes inbox-message pipeline (v0.4.0 handler in
`src/extension.ts`).  The handler watches an inbox for `{id}.msg` files;
for each one it reads and trims the content, splits it on `|` into
`sessionId|mode|message`, consults an optional `context.probe` advisory,
dispatches the message to the host chat surface according to the mode,
and resolves the request to exactly one outcome artifact (`.ack` or
`.err`, plus possibly a `.warn`), always attempting exactly one removal
of the `.msg` file.

The embedding below is a trace semantics: every host-command invocation,
delay, attempted file write and attempted unlink becomes an `Event`.
An `Env` record supplies the fallible parts of the world (the initial
file read, whether each write / the unlink throws, and whether each host
command throws).  `runHandler` mirrors the control flow of the
`onDidCreate` callback, including the per-operation `try/catch` in
`_cleanup` / `_writeWarn` and the outer `catch`.
-/

namespace Hermes

/-- Whitespace for the purposes of `String.prototype.trim()` (the
characters relevant to this pipeline; JS trims a slightly larger Unicode
set, which no claim depends on). -/
def jsWhitespace (c : Char) : Bool :=
  c = ' ' || c = '\t' || c = '\n' || c = '\r' || c = '\x0b' || c = '\x0c' || c = ' '

/-- Drop leading whitespace characters. -/
def trimLeftChars : List Char → List Char
  | [] => []
  | c :: cs => if jsWhitespace c then trimLeftChars cs else c :: cs

/-- Embedding of `raw.trim()`: drop whitespace from both ends. -/
def jsTrim (s : String) : String :=
  ⟨(trimLeftChars (trimLeftChars s.data).reverse).reverse⟩

/-- Embedding of `str.split('|')` at character level: split on each
occurrence of the separator, keeping empty segments ( `"".split` gives
one empty segment, as in JS). -/
def splitPipeChars : List Char → List (List Char)
  | [] => [[]]
  | c :: cs =>
    match splitPipeChars cs with
    | [] => [[]]
    | s :: ss => if c = '|' then [] :: s :: ss else (c :: s) :: ss

/-- Embedding of `str.split('|')` on strings. -/
def jsSplitPipe (s : String) : List String :=
  (splitPipeChars s.data).map String.mk

/-- Embedding of `arr.join('|')`. -/
def joinPipe : List String → String
  | [] => ""
  | [s] => s
  | s :: ss => s ++ "|" ++ joinPipe ss

/-- Embedding of `sessionId.substring(0, 8)`. -/
def take8 (s : String) : String :=
  ⟨s.data.take 8⟩

/-- Decimal rendering used when a probe number is interpolated into a
template string; integers render as in JS (`97` ↦ `"97"`). -/
def ratToString (q : Rat) : String :=
  if q.den = 1 then toString q.num else toString q.num ++ "/" ++ toString q.den

/-- Reason string of the `parts.length < 3` branch. -/
def malformedReason (n : Nat) : String :=
  "Invalid format — expected \"sessionId|mode|message\", got " ++ toString n ++ " segment(s)"

/-- Reason string of the `!sessionId || !mode || !message` branch. -/
def emptyFieldReason (sessionId mode message : String) : String :=
  "Empty field — sessionId=\"" ++ sessionId ++ "\" mode=\"" ++ mode ++
    "\" message=\"" ++ message ++ "\""

/-- Reason string of the context-block branch (probe present,
`contextPct > 95`, mode `steer`). -/
def contextBlockReason (pct : Rat) : String :=
  "mode=steer blocked: context_pct=" ++ ratToString pct ++
    "% > 95%. Use mode=compact first, then retry."

/-- Content of the `.warn` artifact written when `contextPct > 80`. -/
def contextWarnNote (pct patch : Rat) : String :=
  "context warning: context_pct=" ++ ratToString pct ++
    "% > 80% (approaching compaction zone, patch=" ++ ratToString patch ++ ")"

/-- Ack content of the `send` branch. -/
def sendAckNote (sessionId now : String) : String :=
  "sent sessionId=" ++ take8 sessionId ++ "... at " ++ now

/-- Ack content of the `steer` branch. -/
def steerAckNote (sessionId now : String) : String :=
  "steered (steerWithMessage) sessionId=" ++ take8 sessionId ++ "... at " ++ now

/-- Ack content of the `stop-and-send` branch. -/
def stopAndSendAckNote (sessionId now : String) : String :=
  "stop-and-send sessionId=" ++ take8 sessionId ++ "... at " ++ now

/-- Ack content of the `queue` branch. -/
def queueAckNote (sessionId now : String) : String :=
  "queued (queueMessage) sessionId=" ++ take8 sessionId ++ "... at " ++ now

/-- Ack content of the `compact` branch. -/
def compactAckNote (now : String) : String :=
  "compact: opened context usage panel at " ++ now ++
    ". No direct compact command in VS Code — press compact in the panel."

/-- Reason string of the unknown-mode branch. -/
def unknownModeReason (mode : String) : String :=
  "Unknown mode=\"" ++ mode ++ "\" — supported modes: send, steer, stop-and-send, queue, compact"

/-- Reason string produced by the outer `catch` block. -/
def exceptionReason (msg : String) : String :=
  "Exception: " ++ msg

/-- Result of the inline parse step (lines 190–207 of the handler). -/
inductive ParseResult where
  | malformed (segmentCount : Nat)
  | emptyField (sessionId mode message : String)
  | ok (sessionId mode message : String)
deriving DecidableEq

/-- Embedding of the parse step: trim, split on `|`, require at least 3
segments, destructure `[sessionId, mode, ...messageParts]`, rejoin the
message, and require all three fields non-empty. -/
def parseRequest (raw : String) : ParseResult :=
  let parts := jsSplitPipe (jsTrim raw)
  if parts.length < 3 then .malformed parts.length
  else
    let sessionId := parts.getD 0 ""
    let mode := parts.getD 1 ""
    let message := joinPipe (parts.drop 2)
    if sessionId = "" ∨ mode = "" ∨ message = "" then
      .emptyField sessionId mode message
    else .ok sessionId mode message

/-- Host commands invoked via `vscode.commands.executeCommand`. -/
inductive Cmd where
  | chatOpen (query : String) (isPartialQuery : Bool)
  | chatCancel
  | chatSteerWithMessage
  | chatQueueMessage
  | chatShowContextUsage
deriving DecidableEq

/-- The three kinds of artifact the handler writes next to the `.msg`. -/
inductive OutFile where
  | ack
  | err
  | warn
deriving DecidableEq

/-- Trace events.  `fsWrite` and `unlinkMsg` record an *attempt*; the
Boolean says whether it succeeded (a `false` means the underlying call
threw and was swallowed by the surrounding `try/catch`). -/
inductive Event where
  | cmd (c : Cmd)
  | delayMs (ms : Nat)
  | fsWrite (file : OutFile) (content : String) (ok : Bool)
  | unlinkMsg (ok : Bool)
deriving DecidableEq

/-- The optional `context.probe` advisory, as returned by
`_readContextProbe` (numeric fields default to 0, `state` to
"unknown"; a missing or unreadable file is `none`). -/
structure ContextProbe where
  contextPct : Rat
  patch : Rat
  rsc : Rat
  state : String

/-- The fallible environment of one handler run: the result of the
initial `readFileSync`, which file writes throw, whether the unlink
throws, and which host commands throw (with the thrown message). -/
structure Env where
  readResult : Except String String
  writeThrows : OutFile → Bool
  unlinkThrows : Bool
  cmdFail : Cmd → Option String

/-- Fixed delay of the `steer` branch (`_delay(100)`). -/
def steerDelayMs : Nat := 100

/-- Fixed delay of the `queue` branch (`_delay(100)`). -/
def queueDelayMs : Nat := 100

/-- Fixed delay of the `stop-and-send` branch (`_delay(300)`). -/
def stopAndSendDelayMs : Nat := 300

/-- A step of the handler body: the events it emits, and `some e` when
it ends by throwing `e` (to be caught by the outer `catch`). -/
abbrev Step := List Event × Option String

/-- Invoke one host command: the invocation is recorded, and the step
throws when the environment says this command throws. -/
def execCmd (env : Env) (c : Cmd) : Step :=
  ([Event.cmd c], env.cmdFail c)

/-- Embedding of `await _delay(ms)` (never throws). -/
def delayStep (ms : Nat) : Step :=
  ([Event.delayMs ms], none)

/-- Sequence two steps: the second runs only when the first did not
throw (events emitted before a throw persist). -/
def andThen (a b : Step) : Step :=
  match a with
  | (es, some e) => (es, some e)
  | (es, none) => (es ++ b.1, b.2)

/-- Embedding of `_cleanup(outFile, content)`: one attempted write of
the outcome artifact and one attempted unlink of the `.msg`, each in
its own `try { } catch { }`, so neither failure stops the other and no
exception escapes. -/
def cleanup (env : Env) (file : OutFile) (content : String) : List Event :=
  [Event.fsWrite file content (!env.writeThrows file),
   Event.unlinkMsg (!env.unlinkThrows)]

/-- Embedding of `_writeWarn(content)`: one attempted write of the
`.warn` artifact inside a `try { } catch { }`. -/
def writeWarn (env : Env) (content : String) : List Event :=
  [Event.fsWrite .warn content (!env.writeThrows .warn)]

/-- The mode dispatch chain (lines 225–290): one branch per recognized
mode, ending in an ack cleanup; the final `else` writes the
unknown-mode error. -/
def dispatch (env : Env) (sessionId mode message now : String) : Step :=
  if mode = "send" then
    andThen (execCmd env (.chatOpen message false))
      (cleanup env .ack (sendAckNote sessionId now), none)
  else if mode = "steer" then
    andThen (execCmd env (.chatOpen message true))
      (andThen (delayStep steerDelayMs)
        (andThen (execCmd env .chatSteerWithMessage)
          (cleanup env .ack (steerAckNote sessionId now), none)))
  else if mode = "stop-and-send" then
    andThen (execCmd env .chatCancel)
      (andThen (delayStep stopAndSendDelayMs)
        (andThen (execCmd env (.chatOpen message false))
          (cleanup env .ack (stopAndSendAckNote sessionId now), none)))
  else if mode = "queue" then
    andThen (execCmd env (.chatOpen message true))
      (andThen (delayStep queueDelayMs)
        (andThen (execCmd env .chatQueueMessage)
          (cleanup env .ack (queueAckNote sessionId now), none)))
  else if mode = "compact" then
    andThen (execCmd env .chatShowContextUsage)
      (cleanup env .ack (compactAckNote now), none)
  else
    (cleanup env .err (unknownModeReason mode), none)

/-- Body of the outer `try` block: read, parse, advisory gate, then
dispatch. -/
def handlerTry (env : Env) (probe : Option ContextProbe) (now : String) : Step :=
  match env.readResult with
  | .error e => ([], some e)
  | .ok raw =>
    match parseRequest raw with
    | .malformed n => (cleanup env .err (malformedReason n), none)
    | .emptyField s m g => (cleanup env .err (emptyFieldReason s m g), none)
    | .ok sessionId mode message =>
      match probe with
      | some p =>
        if 95 < p.contextPct ∧ mode = "steer" then
          (cleanup env .err (contextBlockReason p.contextPct), none)
        else if 80 < p.contextPct then
          andThen (writeWarn env (contextWarnNote p.contextPct p.patch), none)
            (dispatch env sessionId mode message now)
        else dispatch env sessionId mode message now
      | none => dispatch env sessionId mode message now

/-- The outer `catch`: a throw from the body is resolved by a final
`_cleanup(errFile, "Exception: " ++ e)`. -/
def runCaught (env : Env) (st : Step) : List Event :=
  match st with
  | (es, none) => es
  | (es, some e) => es ++ cleanup env .err (exceptionReason e)

/-- Full trace of one `onDidCreate` callback run. -/
def runHandler (env : Env) (probe : Option ContextProbe) (now : String) : List Event :=
  runCaught env (handlerTry env probe now)

/-- Host-capability or delay events (everything awaited against the host). -/
def isHostEvent : Event → Bool
  | .cmd _ => true
  | .delayMs _ => true
  | .fsWrite _ _ _ => false
  | .unlinkMsg _ => false

/-- The host-side subtrace (command invocations and delays, in order). -/
def hostEvents (es : List Event) : List Event :=
  es.filter isHostEvent

/-- Host-capability invocations only. -/
def isCmdEvent : Event → Bool
  | .cmd _ => true
  | .delayMs _ => false
  | .fsWrite _ _ _ => false
  | .unlinkMsg _ => false

/-- The command-invocation subtrace. -/
def cmdEvents (es : List Event) : List Event :=
  es.filter isCmdEvent

/-- An attempted write of a terminal outcome artifact (`.ack` or `.err`;
the `.warn` artifact is a side warning, not an outcome). -/
def isOutcomeWrite : Event → Bool
  | .cmd _ => false
  | .delayMs _ => false
  | .fsWrite .ack _ _ => true
  | .fsWrite .err _ _ => true
  | .fsWrite .warn _ _ => false
  | .unlinkMsg _ => false

/-- Number of attempted outcome-artifact writes in a trace. -/
def outcomeWriteCount (es : List Event) : Nat :=
  (es.filter isOutcomeWrite).length

/-- An attempted removal of the request artifact. -/
def isUnlink : Event → Bool
  | .cmd _ => false
  | .delayMs _ => false
  | .fsWrite _ _ _ => false
  | .unlinkMsg _ => true

/-- Number of attempted request-artifact removals in a trace. -/
def unlinkCount (es : List Event) : Nat :=
  (es.filter isUnlink).length

/-- An environment in which the read yields `raw` and nothing throws. -/
def cleanEnv (raw : String) : Env :=
  { readResult := .ok raw
    writeThrows := fun _ => false
    unlinkThrows := false
    cmdFail := fun _ => none }

/-- The events the advisory gate emits when it does not block: the
`.warn` write attempt when the probe is present with `contextPct > 80`,
nothing otherwise. -/
def warnPrefix (env : Env) (probe : Option ContextProbe) : List Event :=
  match probe with
  | some p =>
    if 80 < p.contextPct then writeWarn env (contextWarnNote p.contextPct p.patch) else []
  | none => []

/-- Boolean substring-at-the-front test on character lists. -/
def listPrefixOf : List Char → List Char → Bool
  | [], _ => true
  | _ :: _, [] => false
  | a :: as, b :: bs => a = b && listPrefixOf as bs

/-- Boolean substring test on character lists. -/
def listInfixOf (pat : List Char) : List Char → Bool
  | [] => listPrefixOf pat []
  | c :: rest => listPrefixOf pat (c :: rest) || listInfixOf pat rest

/-- The string `s` contains `pat` as a contiguous substring. -/
def StrContains (s pat : String) : Prop :=
  listInfixOf pat.data s.data = true

instance (s pat : String) : Decidable (StrContains s pat) :=
  inferInstanceAs (Decidable (listInfixOf pat.data s.data = true))

/-! Helper lemmas about strings, substrings and traces. -/

theorem string_data_append (a b : String) : (a ++ b).data = a.data ++ b.data := rfl

theorem listPrefixOf_self_append (l t : List Char) : listPrefixOf l (l ++ t) = true := by
  induction l with
  | nil => rfl
  | cons c cs ih => simp [listPrefixOf, ih]

theorem listPrefixOf_extend (p : List Char) :
    ∀ x, listPrefixOf p x = true → ∀ y, listPrefixOf p (x ++ y) = true := by
  induction p with
  | nil => intro x _ y; rfl
  | cons a as ih =>
    intro x h y
    cases x with
    | nil => simp [listPrefixOf] at h
    | cons b bs =>
      simp only [listPrefixOf, Bool.and_eq_true, decide_eq_true_eq] at h
      simp only [List.cons_append, listPrefixOf, Bool.and_eq_true, decide_eq_true_eq]
      exact ⟨h.1, ih bs h.2 y⟩

theorem listInfixOf_append_left (p y : List Char) (h : listInfixOf p y = true) :
    ∀ x, listInfixOf p (x ++ y) = true := by
  intro x
  induction x with
  | nil => simpa using h
  | cons c cs ih => simp [listInfixOf, ih]

theorem listInfixOf_self_append (p t : List Char) : listInfixOf p (p ++ t) = true := by
  cases p with
  | nil => cases t <;> simp [listInfixOf, listPrefixOf]
  | cons c cs =>
    simp only [List.cons_append, listInfixOf]
    have := listPrefixOf_self_append (c :: cs) t
    simp only [List.cons_append] at this
    simp [this]

theorem listInfixOf_self (p : List Char) : listInfixOf p p = true := by
  have := listInfixOf_self_append p []
  rwa [List.append_nil] at this

theorem listInfixOf_append_right (p : List Char) :
    ∀ x, listInfixOf p x = true → ∀ y, listInfixOf p (x ++ y) = true := by
  intro x
  induction x with
  | nil =>
    intro h y
    cases p with
    | nil => exact listInfixOf_self_append [] y
    | cons a as => simp [listInfixOf, listPrefixOf] at h
  | cons c cs ih =>
    intro h y
    simp only [listInfixOf, Bool.or_eq_true] at h
    simp only [List.cons_append, listInfixOf, Bool.or_eq_true]
    rcases h with h | h
    · left
      have := listPrefixOf_extend p (c :: cs) h y
      simpa using this
    · right; exact ih h y

theorem strContains_mid (a b c : String) : StrContains (a ++ b ++ c) b := by
  unfold StrContains
  show listInfixOf b.data ((a.data ++ b.data) ++ c.data) = true
  rw [List.append_assoc]
  exact listInfixOf_append_left _ _ (listInfixOf_self_append _ _) _

theorem strContains_right (a b : String) : StrContains (a ++ b) b := by
  unfold StrContains
  show listInfixOf b.data (a.data ++ b.data) = true
  exact listInfixOf_append_left _ _ (listInfixOf_self _) _

theorem strContains_left (a b : String) : StrContains (a ++ b) a := by
  unfold StrContains
  show listInfixOf a.data (a.data ++ b.data) = true
  exact listInfixOf_self_append _ _

theorem strContains_grow_left (a t pat : String) (h : StrContains t pat) :
    StrContains (a ++ t) pat := by
  unfold StrContains at h ⊢
  show listInfixOf pat.data (a.data ++ t.data) = true
  exact listInfixOf_append_left _ _ h _

theorem strContains_grow_right (t c pat : String) (h : StrContains t pat) :
    StrContains (t ++ c) pat := by
  unfold StrContains at h ⊢
  show listInfixOf pat.data (t.data ++ c.data) = true
  exact listInfixOf_append_right _ _ h _

theorem data_head?_append {a : String} (b : String) {c : Char}
    (h : a.data.head? = some c) : (a ++ b).data.head? = some c := by
  show (a.data ++ b.data).head? = some c
  cases hd : a.data with
  | nil => rw [hd] at h; cases h
  | cons x xs =>
    rw [hd] at h
    simp only [List.head?] at h
    simp [List.head?, h]

theorem string_ne_of_head_ne {a b : String} {c d : Char}
    (ha : a.data.head? = some c) (hb : b.data.head? = some d) (hcd : c ≠ d) : a ≠ b := by
  intro e
  rw [e, hb] at ha
  exact hcd (Option.some.inj ha).symm

theorem malformedReason_head (n : Nat) :
    (malformedReason n).data.head? = some 'I' := by
  unfold malformedReason
  repeat apply data_head?_append
  rfl

theorem emptyFieldReason_head (s m g : String) :
    (emptyFieldReason s m g).data.head? = some 'E' := by
  unfold emptyFieldReason
  repeat apply data_head?_append
  rfl

theorem contextBlockReason_head (q : Rat) :
    (contextBlockReason q).data.head? = some 'm' := by
  unfold contextBlockReason
  repeat apply data_head?_append
  rfl

theorem unknownModeReason_head (m : String) :
    (unknownModeReason m).data.head? = some 'U' := by
  unfold unknownModeReason
  repeat apply data_head?_append
  rfl

theorem exceptionReason_head (e : String) :
    (exceptionReason e).data.head? = some 'E' := by
  unfold exceptionReason
  repeat apply data_head?_append
  rfl

theorem emptyFieldReason_ne_malformedReason (s m g : String) (n : Nat) :
    emptyFieldReason s m g ≠ malformedReason n :=
  string_ne_of_head_ne (emptyFieldReason_head s m g) (malformedReason_head n) (by decide)

theorem contextBlockReason_ne_unknownModeReason (q : Rat) (m : String) :
    contextBlockReason q ≠ unknownModeReason m :=
  string_ne_of_head_ne (contextBlockReason_head q) (unknownModeReason_head m) (by decide)

theorem contextBlockReason_ne_exceptionReason (q : Rat) (e : String) :
    contextBlockReason q ≠ exceptionReason e :=
  string_ne_of_head_ne (contextBlockReason_head q) (exceptionReason_head e) (by decide)

theorem runCaught_andThen_none (env : Env) (ws : List Event) (st : Step) :
    runCaught env (andThen (ws, none) st) = ws ++ runCaught env st := by
  rcases st with ⟨es, r⟩
  cases r <;> simp [andThen, runCaught]

theorem outcomeWriteCount_append (a b : List Event) :
    outcomeWriteCount (a ++ b) = outcomeWriteCount a + outcomeWriteCount b := by
  simp [outcomeWriteCount, List.filter_append]

theorem unlinkCount_append (a b : List Event) :
    unlinkCount (a ++ b) = unlinkCount a + unlinkCount b := by
  simp [unlinkCount, List.filter_append]

theorem cleanup_counts (env : Env) (f : OutFile) (c : String) (hf : f ≠ OutFile.warn) :
    outcomeWriteCount (cleanup env f c) = 1 ∧ unlinkCount (cleanup env f c) = 1 := by
  cases f <;>
    simp [cleanup, outcomeWriteCount, unlinkCount, isOutcomeWrite, isUnlink, List.filter] at hf ⊢

theorem warnPrefix_counts (env : Env) (probe : Option ContextProbe) :
    outcomeWriteCount (warnPrefix env probe) = 0 ∧ unlinkCount (warnPrefix env probe) = 0 := by
  cases probe with
  | none => simp [warnPrefix, outcomeWriteCount, unlinkCount]
  | some p =>
    by_cases h : 80 < p.contextPct <;>
      simp [warnPrefix, h, writeWarn, outcomeWriteCount, unlinkCount, isOutcomeWrite, isUnlink,
        List.filter]

theorem dispatch_counts (env : Env) (s m g now : String) :
    outcomeWriteCount (runCaught env (dispatch env s m g now)) = 1 ∧
    unlinkCount (runCaught env (dispatch env s m g now)) = 1 := by
  have hack := cleanup_counts env .ack
  have herr := cleanup_counts env .err
  unfold dispatch
  split_ifs
  · rcases hc : env.cmdFail (Cmd.chatOpen g false) with _ | e <;>
      simp [andThen, execCmd, runCaught, hc, outcomeWriteCount_append, unlinkCount_append,
        outcomeWriteCount, unlinkCount, isOutcomeWrite, isUnlink, List.filter, cleanup]
  · rcases hc1 : env.cmdFail (Cmd.chatOpen g true) with _ | e1 <;>
      rcases hc2 : env.cmdFail Cmd.chatSteerWithMessage with _ | e2 <;>
      simp [andThen, execCmd, delayStep, runCaught, hc1, hc2, outcomeWriteCount, unlinkCount,
        isOutcomeWrite, isUnlink, List.filter, cleanup]
  · rcases hc1 : env.cmdFail Cmd.chatCancel with _ | e1 <;>
      rcases hc2 : env.cmdFail (Cmd.chatOpen g false) with _ | e2 <;>
      simp [andThen, execCmd, delayStep, runCaught, hc1, hc2, outcomeWriteCount, unlinkCount,
        isOutcomeWrite, isUnlink, List.filter, cleanup]
  · rcases hc1 : env.cmdFail (Cmd.chatOpen g true) with _ | e1 <;>
      rcases hc2 : env.cmdFail Cmd.chatQueueMessage with _ | e2 <;>
      simp [andThen, execCmd, delayStep, runCaught, hc1, hc2, outcomeWriteCount, unlinkCount,
        isOutcomeWrite, isUnlink, List.filter, cleanup]
  · rcases hc : env.cmdFail Cmd.chatShowContextUsage with _ | e <;>
      simp [andThen, execCmd, runCaught, hc, outcomeWriteCount, unlinkCount,
        isOutcomeWrite, isUnlink, List.filter, cleanup]
  · simp [runCaught, outcomeWriteCount, unlinkCount, isOutcomeWrite, isUnlink, List.filter,
      cleanup]

theorem runHandler_read_error (env : Env) (probe : Option ContextProbe) (now e : String)
    (hr : env.readResult = .error e) :
    runHandler env probe now = cleanup env .err (exceptionReason e) := by
  simp [runHandler, handlerTry, hr, runCaught]

theorem runHandler_malformed (env : Env) (probe : Option ContextProbe) (now raw : String)
    (n : Nat) (hr : env.readResult = .ok raw) (hp : parseRequest raw = .malformed n) :
    runHandler env probe now = cleanup env .err (malformedReason n) := by
  simp [runHandler, handlerTry, hr, hp, runCaught]

theorem runHandler_emptyField (env : Env) (probe : Option ContextProbe) (now raw s m g : String)
    (hr : env.readResult = .ok raw) (hp : parseRequest raw = .emptyField s m g) :
    runHandler env probe now = cleanup env .err (emptyFieldReason s m g) := by
  simp [runHandler, handlerTry, hr, hp, runCaught]

theorem runHandler_blocked (env : Env) (probe : Option ContextProbe) (now raw s g : String)
    (p : ContextProbe) (hr : env.readResult = .ok raw)
    (hp : parseRequest raw = .ok s "steer" g)
    (hprobe : probe = some p) (h95 : 95 < p.contextPct) :
    runHandler env probe now = cleanup env .err (contextBlockReason p.contextPct) := by
  simp only [runHandler, handlerTry, hr, hp, hprobe]
  rw [if_pos ⟨h95, trivial⟩]
  simp [runCaught]

theorem runHandler_not_blocked (env : Env) (probe : Option ContextProbe) (now raw s m g : String)
    (hr : env.readResult = .ok raw) (hp : parseRequest raw = .ok s m g)
    (hnb : ∀ p, probe = some p → ¬(95 < p.contextPct ∧ m = "steer")) :
    runHandler env probe now = warnPrefix env probe ++ runCaught env (dispatch env s m g now) := by
  cases probe with
  | none => simp [runHandler, handlerTry, hr, hp, warnPrefix]
  | some p =>
    simp only [runHandler, handlerTry, hr, hp, warnPrefix]
    rw [if_neg (hnb p rfl)]
    by_cases h80 : 80 < p.contextPct
    · rw [if_pos h80, if_pos h80, runCaught_andThen_none]
    · rw [if_neg h80, if_neg h80]
      simp

theorem runCaught_dispatch_send (env : Env) (s g now : String)
    (hc : env.cmdFail (Cmd.chatOpen g false) = none) :
    runCaught env (dispatch env s "send" g now) =
      [Event.cmd (Cmd.chatOpen g false),
       Event.fsWrite .ack (sendAckNote s now) (!env.writeThrows .ack),
       Event.unlinkMsg (!env.unlinkThrows)] := by
  simp [dispatch, andThen, execCmd, runCaught, cleanup, hc]

theorem runCaught_dispatch_steer (env : Env) (s g now : String)
    (hc1 : env.cmdFail (Cmd.chatOpen g true) = none)
    (hc2 : env.cmdFail Cmd.chatSteerWithMessage = none) :
    runCaught env (dispatch env s "steer" g now) =
      [Event.cmd (Cmd.chatOpen g true),
       Event.delayMs steerDelayMs,
       Event.cmd Cmd.chatSteerWithMessage,
       Event.fsWrite .ack (steerAckNote s now) (!env.writeThrows .ack),
       Event.unlinkMsg (!env.unlinkThrows)] := by
  simp [dispatch, andThen, execCmd, delayStep, runCaught, cleanup, hc1, hc2]

theorem runCaught_dispatch_stopAndSend (env : Env) (s g now : String)
    (hc1 : env.cmdFail Cmd.chatCancel = none)
    (hc2 : env.cmdFail (Cmd.chatOpen g false) = none) :
    runCaught env (dispatch env s "stop-and-send" g now) =
      [Event.cmd Cmd.chatCancel,
       Event.delayMs stopAndSendDelayMs,
       Event.cmd (Cmd.chatOpen g false),
       Event.fsWrite .ack (stopAndSendAckNote s now) (!env.writeThrows .ack),
       Event.unlinkMsg (!env.unlinkThrows)] := by
  simp [dispatch, andThen, execCmd, delayStep, runCaught, cleanup, hc1, hc2]

theorem runCaught_dispatch_queue (env : Env) (s g now : String)
    (hc1 : env.cmdFail (Cmd.chatOpen g true) = none)
    (hc2 : env.cmdFail Cmd.chatQueueMessage = none) :
    runCaught env (dispatch env s "queue" g now) =
      [Event.cmd (Cmd.chatOpen g true),
       Event.delayMs queueDelayMs,
       Event.cmd Cmd.chatQueueMessage,
       Event.fsWrite .ack (queueAckNote s now) (!env.writeThrows .ack),
       Event.unlinkMsg (!env.unlinkThrows)] := by
  simp [dispatch, andThen, execCmd, delayStep, runCaught, cleanup, hc1, hc2]

theorem runCaught_dispatch_compact (env : Env) (s g now : String)
    (hc : env.cmdFail Cmd.chatShowContextUsage = none) :
    runCaught env (dispatch env s "compact" g now) =
      [Event.cmd Cmd.chatShowContextUsage,
       Event.fsWrite .ack (compactAckNote now) (!env.writeThrows .ack),
       Event.unlinkMsg (!env.unlinkThrows)] := by
  simp [dispatch, andThen, execCmd, runCaught, cleanup, hc]

theorem runCaught_dispatch_unknown (env : Env) (s m g now : String)
    (h1 : m ≠ "send") (h2 : m ≠ "steer") (h3 : m ≠ "stop-and-send")
    (h4 : m ≠ "queue") (h5 : m ≠ "compact") :
    runCaught env (dispatch env s m g now) =
      [Event.fsWrite .err (unknownModeReason m) (!env.writeThrows .err),
       Event.unlinkMsg (!env.unlinkThrows)] := by
  unfold dispatch
  rw [if_neg h1, if_neg h2, if_neg h3, if_neg h4, if_neg h5]
  simp [runCaught, cleanup]

theorem dispatch_err_content (env : Env) (s m g now note : String) (ok : Bool)
    (h : Event.fsWrite .err note ok ∈ runCaught env (dispatch env s m g now)) :
    note = unknownModeReason m ∨ ∃ e, note = exceptionReason e := by
  unfold dispatch at h
  split_ifs at h
  · rcases hc : env.cmdFail (Cmd.chatOpen g false) with _ | e <;>
      simp [andThen, execCmd, runCaught, cleanup, hc] at h
    all_goals exact Or.inr ⟨_, h.1⟩
  · rcases hc1 : env.cmdFail (Cmd.chatOpen g true) with _ | e1 <;>
      rcases hc2 : env.cmdFail Cmd.chatSteerWithMessage with _ | e2 <;>
      simp [andThen, execCmd, delayStep, runCaught, cleanup, hc1, hc2] at h
    all_goals exact Or.inr ⟨_, h.1⟩
  · rcases hc1 : env.cmdFail Cmd.chatCancel with _ | e1 <;>
      rcases hc2 : env.cmdFail (Cmd.chatOpen g false) with _ | e2 <;>
      simp [andThen, execCmd, delayStep, runCaught, cleanup, hc1, hc2] at h
    all_goals exact Or.inr ⟨_, h.1⟩
  · rcases hc1 : env.cmdFail (Cmd.chatOpen g true) with _ | e1 <;>
      rcases hc2 : env.cmdFail Cmd.chatQueueMessage with _ | e2 <;>
      simp [andThen, execCmd, delayStep, runCaught, cleanup, hc1, hc2] at h
    all_goals exact Or.inr ⟨_, h.1⟩
  · rcases hc : env.cmdFail Cmd.chatShowContextUsage with _ | e <;>
      simp [andThen, execCmd, runCaught, cleanup, hc] at h
    all_goals exact Or.inr ⟨_, h.1⟩
  · simp [runCaught, cleanup] at h
    exact Or.inl h.1

theorem warnPrefix_write_file (env : Env) (probe : Option ContextProbe)
    {f : OutFile} {note : String} {ok : Bool}
    (h : Event.fsWrite f note ok ∈ warnPrefix env probe) : f = OutFile.warn := by
  cases probe with
  | none => simp [warnPrefix] at h
  | some p =>
    by_cases h80 : 80 < p.contextPct <;> simp [warnPrefix, h80, writeWarn] at h
    exact h.1

theorem hostEvents_warnPrefix (env : Env) (probe : Option ContextProbe) :
    hostEvents (warnPrefix env probe) = [] := by
  cases probe with
  | none => rfl
  | some p =>
    by_cases h80 : 80 < p.contextPct <;>
      simp [warnPrefix, h80, writeWarn, hostEvents, isHostEvent, List.filter]

theorem dispatch_ack_content (env : Env) (s m g now note : String) (ok : Bool)
    (h : Event.fsWrite .ack note ok ∈ runCaught env (dispatch env s m g now)) :
    (m = "send" ∧ note = sendAckNote s now) ∨
    (m = "steer" ∧ note = steerAckNote s now) ∨
    (m = "stop-and-send" ∧ note = stopAndSendAckNote s now) ∨
    (m = "queue" ∧ note = queueAckNote s now) ∨
    (m = "compact" ∧ note = compactAckNote now) := by
  unfold dispatch at h
  split_ifs at h with hm1 hm2 hm3 hm4 hm5
  · rcases hc : env.cmdFail (Cmd.chatOpen g false) with _ | e <;>
      simp [andThen, execCmd, runCaught, cleanup, hc] at h
    exact Or.inl ⟨hm1, h.1⟩
  · rcases hc1 : env.cmdFail (Cmd.chatOpen g true) with _ | e1 <;>
      rcases hc2 : env.cmdFail Cmd.chatSteerWithMessage with _ | e2 <;>
      simp [andThen, execCmd, delayStep, runCaught, cleanup, hc1, hc2] at h
    exact Or.inr (Or.inl ⟨hm2, h.1⟩)
  · rcases hc1 : env.cmdFail Cmd.chatCancel with _ | e1 <;>
      rcases hc2 : env.cmdFail (Cmd.chatOpen g false) with _ | e2 <;>
      simp [andThen, execCmd, delayStep, runCaught, cleanup, hc1, hc2] at h
    exact Or.inr (Or.inr (Or.inl ⟨hm3, h.1⟩))
  · rcases hc1 : env.cmdFail (Cmd.chatOpen g true) with _ | e1 <;>
      rcases hc2 : env.cmdFail Cmd.chatQueueMessage with _ | e2 <;>
      simp [andThen, execCmd, delayStep, runCaught, cleanup, hc1, hc2] at h
    exact Or.inr (Or.inr (Or.inr (Or.inl ⟨hm4, h.1⟩)))
  · rcases hc : env.cmdFail Cmd.chatShowContextUsage with _ | e <;>
      simp [andThen, execCmd, runCaught, cleanup, hc] at h
    exact Or.inr (Or.inr (Or.inr (Or.inr ⟨hm5, h.1⟩)))
  · simp [runCaught, cleanup] at h

/-! Claim theorems. -/

/-- C1: for every environment — including every combination of a failing
outcome write, a failing unlink, a failing read and failing host
commands — every advisory state and every timestamp, one handler run
attempts exactly one write of a terminal outcome artifact (`.ack` or
`.err`) and exactly one removal of the request artifact.  The counts are
independent of the `writeThrows`/`unlinkThrows` failure bits (each
operation sits in its own `try/catch`), and `runHandler` is a total
function, so no failure propagates out of the handler. -/
theorem claim1_one_outcome_one_removal (env : Env) (probe : Option ContextProbe) (now : String) :
    outcomeWriteCount (runHandler env probe now) = 1 ∧
    unlinkCount (runHandler env probe now) = 1 := by
  cases hr : env.readResult with
  | error e =>
    rw [runHandler_read_error env probe now e hr]
    exact cleanup_counts env .err _ (by decide)
  | ok raw =>
    cases hp : parseRequest raw with
    | malformed n =>
      rw [runHandler_malformed env probe now raw n hr hp]
      exact cleanup_counts env .err _ (by decide)
    | emptyField s m g =>
      rw [runHandler_emptyField env probe now raw s m g hr hp]
      exact cleanup_counts env .err _ (by decide)
    | ok s m g =>
      by_cases hb : ∃ p, probe = some p ∧ 95 < p.contextPct ∧ m = "steer"
      · obtain ⟨p, hprobe, h95, hm⟩ := hb
        subst hm
        rw [runHandler_blocked env probe now raw s g p hr hp hprobe h95]
        exact cleanup_counts env .err _ (by decide)
      · have hnb : ∀ p, probe = some p → ¬(95 < p.contextPct ∧ m = "steer") :=
          fun p hpr hcond => hb ⟨p, hpr, hcond⟩
        rw [runHandler_not_blocked env probe now raw s m g hr hp hnb]
        rw [outcomeWriteCount_append, unlinkCount_append]
        have hw := warnPrefix_counts env probe
        have hd := dispatch_counts env s m g now
        rw [hw.1, hw.2, hd.1, hd.2]
        exact ⟨rfl, rfl⟩

/-- C2: whenever the trimmed content splits on `|` into fewer than 3
segments, the run's whole trace is one attempted `.err` write carrying
the malformed-segment-count reason — whose text contains the observed
segment count — followed by one attempted unlink, with zero
host-capability invocations (and no delays). -/
theorem claim2_malformed_segments (env : Env) (probe : Option ContextProbe) (now raw : String)
    (hr : env.readResult = .ok raw)
    (hlen : (jsSplitPipe (jsTrim raw)).length < 3) :
    runHandler env probe now =
      [Event.fsWrite .err (malformedReason (jsSplitPipe (jsTrim raw)).length)
         (!env.writeThrows .err),
       Event.unlinkMsg (!env.unlinkThrows)] ∧
    hostEvents (runHandler env probe now) = [] ∧
    StrContains (malformedReason (jsSplitPipe (jsTrim raw)).length)
      (toString (jsSplitPipe (jsTrim raw)).length) := by
  have hp : parseRequest raw = .malformed (jsSplitPipe (jsTrim raw)).length := by
    simp only [parseRequest]
    rw [if_pos hlen]
  have ht := runHandler_malformed env probe now raw _ hr hp
  refine ⟨?_, ?_, ?_⟩
  · rw [ht]; rfl
  · rw [ht]; simp [cleanup, hostEvents, isHostEvent, List.filter]
  · unfold malformedReason
    exact strContains_mid _ _ _

/-- C2 witness: a one-segment input `"abc"` resolves to the
malformed-count `.err` outcome with an empty host trace. -/
theorem claim2_witness :
    runHandler (cleanEnv "abc") none "T" =
      [Event.fsWrite .err (malformedReason (jsSplitPipe (jsTrim "abc")).length) true,
       Event.unlinkMsg true] ∧
    hostEvents (runHandler (cleanEnv "abc") none "T") = [] ∧
    StrContains (malformedReason (jsSplitPipe (jsTrim "abc")).length)
      (toString (jsSplitPipe (jsTrim "abc")).length) :=
  claim2_malformed_segments (cleanEnv "abc") none "T" "abc" rfl (by decide)

/-- C3: with at least 3 segments, parsing assigns the first segment to
`sessionId`, the second to `mode`, and rejoins all remaining segments
with `|` into `message` (whether the fields then pass or fail the
emptiness check); in particular `"abc|send|hello|world"` parses as
sessionId `abc`, mode `send`, message `hello|world`. -/
theorem claim3_field_assignment (raw : String)
    (hlen : 3 ≤ (jsSplitPipe (jsTrim raw)).length) :
    (parseRequest raw =
        ParseResult.ok ((jsSplitPipe (jsTrim raw)).getD 0 "")
          ((jsSplitPipe (jsTrim raw)).getD 1 "")
          (joinPipe ((jsSplitPipe (jsTrim raw)).drop 2)) ∨
     parseRequest raw =
        ParseResult.emptyField ((jsSplitPipe (jsTrim raw)).getD 0 "")
          ((jsSplitPipe (jsTrim raw)).getD 1 "")
          (joinPipe ((jsSplitPipe (jsTrim raw)).drop 2))) ∧
    parseRequest "abc|send|hello|world" = ParseResult.ok "abc" "send" "hello|world" := by
  constructor
  · simp only [parseRequest]
    rw [if_neg (by omega)]
    split_ifs with h
    · right; rfl
    · left; rfl
  · decide

/-- C3 witness: the distinguished input has enough segments, and its
parse is the stated assignment. -/
theorem claim3_witness :
    parseRequest "abc|send|hello|world" = ParseResult.ok "abc" "send" "hello|world" :=
  (claim3_field_assignment "abc|send|hello|world" (by decide)).2

/-- C4: with at least 3 segments but an empty sessionId, mode or
message, the run's whole trace is one attempted `.err` write carrying
the empty-field reason — which embeds all three resolved field values —
and one attempted unlink, with zero host-capability invocations; the
reason differs from every malformed-segment-count reason. -/
theorem claim4_empty_field (env : Env) (probe : Option ContextProbe) (now raw : String)
    (hr : env.readResult = .ok raw)
    (hlen : 3 ≤ (jsSplitPipe (jsTrim raw)).length)
    (hemp : (jsSplitPipe (jsTrim raw)).getD 0 "" = "" ∨
            (jsSplitPipe (jsTrim raw)).getD 1 "" = "" ∨
            joinPipe ((jsSplitPipe (jsTrim raw)).drop 2) = "") :
    runHandler env probe now =
      [Event.fsWrite .err
         (emptyFieldReason ((jsSplitPipe (jsTrim raw)).getD 0 "")
           ((jsSplitPipe (jsTrim raw)).getD 1 "")
           (joinPipe ((jsSplitPipe (jsTrim raw)).drop 2)))
         (!env.writeThrows .err),
       Event.unlinkMsg (!env.unlinkThrows)] ∧
    hostEvents (runHandler env probe now) = [] ∧
    (∀ n, emptyFieldReason ((jsSplitPipe (jsTrim raw)).getD 0 "")
        ((jsSplitPipe (jsTrim raw)).getD 1 "")
        (joinPipe ((jsSplitPipe (jsTrim raw)).drop 2)) ≠ malformedReason n) := by
  have hp : parseRequest raw =
      .emptyField ((jsSplitPipe (jsTrim raw)).getD 0 "")
        ((jsSplitPipe (jsTrim raw)).getD 1 "")
        (joinPipe ((jsSplitPipe (jsTrim raw)).drop 2)) := by
    simp only [parseRequest]
    rw [if_neg (by omega), if_pos hemp]
  have ht := runHandler_emptyField env probe now raw _ _ _ hr hp
  refine ⟨?_, ?_, ?_⟩
  · rw [ht]; rfl
  · rw [ht]; simp [cleanup, hostEvents, isHostEvent, List.filter]
  · intro n
    exact emptyFieldReason_ne_malformedReason _ _ _ n

/-- C4 witness: `"|send|hi"` has 3 segments with an empty sessionId and
resolves to the empty-field `.err` outcome, distinct from the
malformed-count reason. -/
theorem claim4_witness :
    runHandler (cleanEnv "|send|hi") none "T" =
      [Event.fsWrite .err (emptyFieldReason "" "send" "hi") true, Event.unlinkMsg true] ∧
    emptyFieldReason "" "send" "hi" ≠ malformedReason 3 := by
  have h := claim4_empty_field (cleanEnv "|send|hi") none "T" "|send|hi" rfl
    (by decide) (by decide)
  refine ⟨?_, ?_⟩
  · rw [h.1]; decide
  · exact fun e => h.2.2 3 (by rw [← e]; decide)

/-- C5: for a validly parsed request, the context-block outcome happens
exactly when the advisory is present, its `contextPct` exceeds 95, and
the mode is `steer`.  In that case the whole trace is one attempted
`.err` write carrying the block reason (whose text contains the
percentage, the literal `95%` and the compaction hint) and one attempted
unlink, with zero host events; in every other configuration — any other
mode even above 95, a lower percentage, or no advisory — no
context-block `.err` write ever appears in the trace. -/
theorem claim5_context_block_iff (env : Env) (probe : Option ContextProbe)
    (now raw s m g : String)
    (hr : env.readResult = .ok raw) (hp : parseRequest raw = .ok s m g) :
    (∀ p, probe = some p → 95 < p.contextPct → m = "steer" →
        runHandler env probe now =
          [Event.fsWrite .err (contextBlockReason p.contextPct) (!env.writeThrows .err),
           Event.unlinkMsg (!env.unlinkThrows)] ∧
        hostEvents (runHandler env probe now) = [] ∧
        StrContains (contextBlockReason p.contextPct) (ratToString p.contextPct) ∧
        StrContains (contextBlockReason p.contextPct) "95%" ∧
        StrContains (contextBlockReason p.contextPct) "compact") ∧
    ((∀ p, probe = some p → ¬(95 < p.contextPct ∧ m = "steer")) →
        ∀ q ok, Event.fsWrite .err (contextBlockReason q) ok ∉ runHandler env probe now) := by
  constructor
  · intro p hprobe h95 hm
    subst hm
    have ht := runHandler_blocked env probe now raw s g p hr hp hprobe h95
    refine ⟨by rw [ht]; rfl, ?_, ?_, ?_, ?_⟩
    · rw [ht]; simp [cleanup, hostEvents, isHostEvent, List.filter]
    · unfold contextBlockReason
      exact strContains_grow_right _ _ _ (strContains_right _ _)
    · unfold contextBlockReason
      exact strContains_grow_left _ _ _ (by decide)
    · unfold contextBlockReason
      exact strContains_grow_left _ _ _ (by decide)
  · intro hnb q ok hmem
    rw [runHandler_not_blocked env probe now raw s m g hr hp hnb] at hmem
    rcases List.mem_append.mp hmem with hw | hd
    · exact absurd (warnPrefix_write_file env probe hw) (by decide)
    · rcases dispatch_err_content env s m g now _ ok hd with h1 | ⟨e, h2⟩
      · exact contextBlockReason_ne_unknownModeReason q m h1
      · exact contextBlockReason_ne_exceptionReason q e h2

/-- C5 witness: with advisory `context_pct = 97` and mode `steer`, the
run blocks with the 95% reason and performs no host invocation. -/
theorem claim5_witness :
    runHandler (cleanEnv "sess1234|steer|hi") (some (ContextProbe.mk 97 10 42 "running")) "T" =
      [Event.fsWrite .err (contextBlockReason 97) true, Event.unlinkMsg true] ∧
    hostEvents (runHandler (cleanEnv "sess1234|steer|hi")
      (some (ContextProbe.mk 97 10 42 "running")) "T") = [] := by
  have h := (claim5_context_block_iff (cleanEnv "sess1234|steer|hi")
      (some (ContextProbe.mk 97 10 42 "running")) "T" "sess1234|steer|hi" "sess1234" "steer" "hi"
      rfl (by decide)).1 (ContextProbe.mk 97 10 42 "running") rfl (by decide) rfl
  exact ⟨by rw [h.1]; rfl, h.2.1⟩

/-- C6: for a validly parsed, non-blocked request with the advisory
present and `contextPct > 80`, the trace is the attempted `.warn` write
(carrying the percentage and the patch count) followed by the normal
dispatch of the mode; for mode `send` with a working submit command this
yields warn, one full (non-partial) open-and-submit invocation — the
only command invocation of the run — an `.ack` write and the unlink. -/
theorem claim6_warn_and_proceed (env : Env) (probe : Option ContextProbe)
    (now raw s m g : String) (p : ContextProbe)
    (hr : env.readResult = .ok raw) (hp : parseRequest raw = .ok s m g)
    (hprobe : probe = some p) (h80 : 80 < p.contextPct)
    (hnb : ¬(95 < p.contextPct ∧ m = "steer")) :
    runHandler env probe now =
      Event.fsWrite .warn (contextWarnNote p.contextPct p.patch) (!env.writeThrows .warn)
        :: runCaught env (dispatch env s m g now) ∧
    StrContains (contextWarnNote p.contextPct p.patch) (ratToString p.contextPct) ∧
    StrContains (contextWarnNote p.contextPct p.patch) (ratToString p.patch) ∧
    (m = "send" → env.cmdFail (Cmd.chatOpen g false) = none →
      runHandler env probe now =
        [Event.fsWrite .warn (contextWarnNote p.contextPct p.patch) (!env.writeThrows .warn),
         Event.cmd (Cmd.chatOpen g false),
         Event.fsWrite .ack (sendAckNote s now) (!env.writeThrows .ack),
         Event.unlinkMsg (!env.unlinkThrows)] ∧
      cmdEvents (runHandler env probe now) = [Event.cmd (Cmd.chatOpen g false)]) := by
  have hnbAll : ∀ q, probe = some q → ¬(95 < q.contextPct ∧ m = "steer") := by
    intro q hq
    rw [hprobe] at hq
    rw [← Option.some.inj hq]
    exact hnb
  have ht := runHandler_not_blocked env probe now raw s m g hr hp hnbAll
  have hwp : warnPrefix env probe =
      [Event.fsWrite .warn (contextWarnNote p.contextPct p.patch) (!env.writeThrows .warn)] := by
    rw [hprobe]
    simp [warnPrefix, h80, writeWarn]
  refine ⟨?_, ?_, ?_, ?_⟩
  · rw [ht, hwp]; rfl
  · unfold contextWarnNote
    exact strContains_grow_right _ _ _ (strContains_grow_right _ _ _
      (strContains_grow_right _ _ _ (strContains_right _ _)))
  · unfold contextWarnNote
    exact strContains_grow_right _ _ _ (strContains_right _ _)
  · intro hm hcf
    subst hm
    have hfull : runHandler env probe now =
        [Event.fsWrite .warn (contextWarnNote p.contextPct p.patch) (!env.writeThrows .warn),
         Event.cmd (Cmd.chatOpen g false),
         Event.fsWrite .ack (sendAckNote s now) (!env.writeThrows .ack),
         Event.unlinkMsg (!env.unlinkThrows)] := by
      rw [ht, hwp, runCaught_dispatch_send env s g now hcf]
      rfl
    refine ⟨hfull, ?_⟩
    rw [hfull]
    simp [cmdEvents, isCmdEvent, List.filter]

/-- C6 witness: advisory `context_pct = 85` with mode `send` produces
the warning artifact, a single full submit, the ack and the unlink. -/
theorem claim6_witness :
    runHandler (cleanEnv "sess1234|send|hi") (some (ContextProbe.mk 85 10 42 "running")) "T" =
      [Event.fsWrite .warn (contextWarnNote 85 10) true,
       Event.cmd (Cmd.chatOpen "hi" false),
       Event.fsWrite .ack (sendAckNote "sess1234" "T") true,
       Event.unlinkMsg true] ∧
    cmdEvents (runHandler (cleanEnv "sess1234|send|hi")
        (some (ContextProbe.mk 85 10 42 "running")) "T") =
      [Event.cmd (Cmd.chatOpen "hi" false)] := by
  have h := (claim6_warn_and_proceed (cleanEnv "sess1234|send|hi")
      (some (ContextProbe.mk 85 10 42 "running")) "T" "sess1234|send|hi" "sess1234" "send" "hi"
      (ContextProbe.mk 85 10 42 "running") rfl (by decide) rfl (by decide)
      (by intro hc; exact absurd hc.2 (by decide))).2.2.2 rfl rfl
  exact ⟨by rw [h.1]; rfl, h.2⟩

/-- C7: a validly parsed `stop-and-send` request with working host
commands produces exactly the host-side sequence cancel → fixed delay →
full (non-partial) open-and-submit, while a validly parsed, non-blocked
`steer` request produces prefill → fixed delay → steerWithMessage, and
the `stop-and-send` delay (300 ms) is strictly longer than the `steer`
delay (100 ms). -/
theorem claim7_stop_and_send_order (env env2 : Env) (probe probe2 : Option ContextProbe)
    (now now2 raw raw2 s s2 g g2 : String)
    (hr : env.readResult = .ok raw) (hp : parseRequest raw = .ok s "stop-and-send" g)
    (hcf : env.cmdFail = fun _ => none)
    (hr2 : env2.readResult = .ok raw2) (hp2 : parseRequest raw2 = .ok s2 "steer" g2)
    (hcf2 : env2.cmdFail = fun _ => none)
    (hnb2 : ∀ p, probe2 = some p → ¬ 95 < p.contextPct) :
    hostEvents (runHandler env probe now) =
      [Event.cmd Cmd.chatCancel, Event.delayMs stopAndSendDelayMs,
       Event.cmd (Cmd.chatOpen g false)] ∧
    hostEvents (runHandler env2 probe2 now2) =
      [Event.cmd (Cmd.chatOpen g2 true), Event.delayMs steerDelayMs,
       Event.cmd Cmd.chatSteerWithMessage] ∧
    steerDelayMs < stopAndSendDelayMs := by
  have hnb : ∀ p, probe = some p → ¬(95 < p.contextPct ∧ ("stop-and-send" : String) = "steer") := by
    intro p _ hc
    exact absurd hc.2 (by decide)
  have hnb2a : ∀ p, probe2 = some p → ¬(95 < p.contextPct ∧ ("steer" : String) = "steer") := by
    intro p hpr hc
    exact hnb2 p hpr hc.1
  refine ⟨?_, ?_, ?_⟩
  · rw [runHandler_not_blocked env probe now raw s "stop-and-send" g hr hp hnb,
      runCaught_dispatch_stopAndSend env s g now (by rw [hcf]) (by rw [hcf])]
    rw [hostEvents, List.filter_append, ← hostEvents, hostEvents_warnPrefix]
    simp [hostEvents, isHostEvent, List.filter]
  · rw [runHandler_not_blocked env2 probe2 now2 raw2 s2 "steer" g2 hr2 hp2 hnb2a,
      runCaught_dispatch_steer env2 s2 g2 now2 (by rw [hcf2]) (by rw [hcf2])]
    rw [hostEvents, List.filter_append, ← hostEvents, hostEvents_warnPrefix]
    simp [hostEvents, isHostEvent, List.filter]
  · decide

/-- C7 witness: concrete `stop-and-send` and `steer` runs exhibit the
stated host-invocation orders. -/
theorem claim7_witness :
    hostEvents (runHandler (cleanEnv "sess1234|stop-and-send|hi") none "T") =
      [Event.cmd Cmd.chatCancel, Event.delayMs stopAndSendDelayMs,
       Event.cmd (Cmd.chatOpen "hi" false)] ∧
    hostEvents (runHandler (cleanEnv "sess5678|steer|yo") none "T") =
      [Event.cmd (Cmd.chatOpen "yo" true), Event.delayMs steerDelayMs,
       Event.cmd Cmd.chatSteerWithMessage] ∧
    steerDelayMs < stopAndSendDelayMs :=
  claim7_stop_and_send_order (cleanEnv "sess1234|stop-and-send|hi")
    (cleanEnv "sess5678|steer|yo") none none "T" "T"
    "sess1234|stop-and-send|hi" "sess5678|steer|yo" "sess1234" "sess5678" "hi" "yo"
    rfl (by decide) rfl rfl (by decide) rfl (by intro p hp; cases hp)

/-- C8: a validly parsed request whose mode is none of the five
recognized ones resolves — after the optional advisory warning — to one
attempted `.err` write whose reason names the mode and lists the
supported mode set, plus the unlink, with zero host events. -/
theorem claim8_unknown_mode (env : Env) (probe : Option ContextProbe) (now raw s m g : String)
    (hr : env.readResult = .ok raw) (hp : parseRequest raw = .ok s m g)
    (h1 : m ≠ "send") (h2 : m ≠ "steer") (h3 : m ≠ "stop-and-send")
    (h4 : m ≠ "queue") (h5 : m ≠ "compact") :
    runHandler env probe now =
      warnPrefix env probe ++
        [Event.fsWrite .err (unknownModeReason m) (!env.writeThrows .err),
         Event.unlinkMsg (!env.unlinkThrows)] ∧
    hostEvents (runHandler env probe now) = [] ∧
    StrContains (unknownModeReason m) m ∧
    StrContains (unknownModeReason m)
      "supported modes: send, steer, stop-and-send, queue, compact" := by
  have hnb : ∀ p, probe = some p → ¬(95 < p.contextPct ∧ m = "steer") := by
    intro p _ hc
    exact h2 hc.2
  have ht := runHandler_not_blocked env probe now raw s m g hr hp hnb
  have hu := runCaught_dispatch_unknown env s m g now h1 h2 h3 h4 h5
  refine ⟨?_, ?_, ?_, ?_⟩
  · rw [ht, hu]
  · rw [ht, hu]
    rw [hostEvents, List.filter_append, ← hostEvents, hostEvents_warnPrefix]
    simp [hostEvents, isHostEvent, List.filter]
  · unfold unknownModeReason
    exact strContains_grow_right _ _ _ (strContains_right _ _)
  · unfold unknownModeReason
    exact strContains_grow_left _ _ _ (by decide)

/-- C8 witness: mode `frobnicate` produces the unknown-mode error with
no host invocation. -/
theorem claim8_witness :
    runHandler (cleanEnv "sess1234|frobnicate|hi") none "T" =
      warnPrefix (cleanEnv "sess1234|frobnicate|hi") none ++
        [Event.fsWrite .err (unknownModeReason "frobnicate") true, Event.unlinkMsg true] ∧
    hostEvents (runHandler (cleanEnv "sess1234|frobnicate|hi") none "T") = [] ∧
    StrContains (unknownModeReason "frobnicate") "frobnicate" ∧
    StrContains (unknownModeReason "frobnicate")
      "supported modes: send, steer, stop-and-send, queue, compact" :=
  claim8_unknown_mode (cleanEnv "sess1234|frobnicate|hi") none "T" "sess1234|frobnicate|hi"
    "sess1234" "frobnicate" "hi" rfl (by decide)
    (by decide) (by decide) (by decide) (by decide) (by decide)

/-- C9 counterexample: a successful `compact` dispatch writes an ack
whose content does not contain the truncated session id (first 8
characters of `abcdefghij`), and a successful `send` dispatch writes an
ack whose content does not contain the mode name `send` (it says `sent`),
so the claim that every mode's ack carries the mode name and the
truncated session id is false on the code. -/
theorem claim9_counterexample :
    (Event.fsWrite .ack (compactAckNote "2026-02-20T13:20:38.533Z") true ∈
       runHandler (cleanEnv "abcdefghij|compact|hello") none "2026-02-20T13:20:38.533Z" ∧
     ¬ StrContains (compactAckNote "2026-02-20T13:20:38.533Z") (take8 "abcdefghij")) ∧
    (Event.fsWrite .ack (sendAckNote "abcdefghij" "T") true ∈
       runHandler (cleanEnv "abcdefghij|send|hello") none "T" ∧
     ¬ StrContains (sendAckNote "abcdefghij" "T") "send") :=
  ⟨⟨by decide, by decide⟩, ⟨by decide, by decide⟩⟩

/-- C9 amended: every ack written by a run contains the current
timestamp; it contains the truncated session id (first 8 characters)
for every mode except `compact`, whose ack has no session id at all;
and it contains the mode name for every mode except `send`, whose ack
carries the label `sent` instead. -/
theorem claim9_amended_ack_content (env : Env) (probe : Option ContextProbe)
    (now raw s m g : String)
    (hr : env.readResult = .ok raw) (hp : parseRequest raw = .ok s m g) :
    ∀ note ok, Event.fsWrite .ack note ok ∈ runHandler env probe now →
      StrContains note now ∧
      (m ≠ "compact" → StrContains note (take8 s)) ∧
      (m ≠ "send" → StrContains note m) ∧
      (m = "send" → StrContains note "sent") := by
  intro note ok hmem
  by_cases hb : ∃ p, probe = some p ∧ 95 < p.contextPct ∧ m = "steer"
  · obtain ⟨p, hprobe, h95, hm⟩ := hb
    subst hm
    rw [runHandler_blocked env probe now raw s g p hr hp hprobe h95] at hmem
    simp [cleanup] at hmem
  · have hnb : ∀ p, probe = some p → ¬(95 < p.contextPct ∧ m = "steer") :=
      fun p hpr hcond => hb ⟨p, hpr, hcond⟩
    rw [runHandler_not_blocked env probe now raw s m g hr hp hnb] at hmem
    rcases List.mem_append.mp hmem with hw | hd
    · exact absurd (warnPrefix_write_file env probe hw) (by decide)
    rcases dispatch_ack_content env s m g now note ok hd with
      ⟨hm, hn⟩ | ⟨hm, hn⟩ | ⟨hm, hn⟩ | ⟨hm, hn⟩ | ⟨hm, hn⟩ <;> subst hm <;> subst hn
    · unfold sendAckNote
      refine ⟨strContains_right _ _, fun _ => ?_, fun h => absurd rfl h, fun _ => ?_⟩
      · exact strContains_grow_right _ _ _
          (strContains_grow_right _ _ _ (strContains_right _ _))
      · exact strContains_grow_right _ _ _ (strContains_grow_right _ _ _
          (strContains_grow_right _ _ _ (by decide)))
    · unfold steerAckNote
      refine ⟨strContains_right _ _, fun _ => ?_, fun _ => ?_, fun h => absurd h (by decide)⟩
      · exact strContains_grow_right _ _ _
          (strContains_grow_right _ _ _ (strContains_right _ _))
      · exact strContains_grow_right _ _ _ (strContains_grow_right _ _ _
          (strContains_grow_right _ _ _ (by decide)))
    · unfold stopAndSendAckNote
      refine ⟨strContains_right _ _, fun _ => ?_, fun _ => ?_, fun h => absurd h (by decide)⟩
      · exact strContains_grow_right _ _ _
          (strContains_grow_right _ _ _ (strContains_right _ _))
      · exact strContains_grow_right _ _ _ (strContains_grow_right _ _ _
          (strContains_grow_right _ _ _ (by decide)))
    · unfold queueAckNote
      refine ⟨strContains_right _ _, fun _ => ?_, fun _ => ?_, fun h => absurd h (by decide)⟩
      · exact strContains_grow_right _ _ _
          (strContains_grow_right _ _ _ (strContains_right _ _))
      · exact strContains_grow_right _ _ _ (strContains_grow_right _ _ _
          (strContains_grow_right _ _ _ (by decide)))
    · unfold compactAckNote
      refine ⟨strContains_mid _ _ _, fun h => absurd rfl h, fun _ => ?_,
        fun h => absurd h (by decide)⟩
      exact strContains_grow_right _ _ _ (strContains_grow_right _ _ _ (by decide))

/-- C9 amended witness: a concrete `steer` ack contains the truncated
session id. -/
theorem claim9_amended_witness :
    StrContains (steerAckNote "abcdefghij" "2026-02-20T13:20:38.533Z") (take8 "abcdefghij") :=
  ((claim9_amended_ack_content (cleanEnv "abcdefghij|steer|hi") none
      "2026-02-20T13:20:38.533Z" "abcdefghij|steer|hi" "abcdefghij" "steer" "hi" rfl (by decide))
    (steerAckNote "abcdefghij" "2026-02-20T13:20:38.533Z") true (by decide)).2.1 (by decide)

/-- C10: a validly parsed request with an unrecognized mode, under an
advisory with `contextPct > 80`, yields both a `.warn` write attempt and
an `.err` write attempt (plus the unlink) for the same request, because
the advisory warn check runs before the mode is matched. -/
theorem claim10_warn_with_errored (env : Env) (probe : Option ContextProbe)
    (now raw s m g : String) (p : ContextProbe)
    (hr : env.readResult = .ok raw) (hp : parseRequest raw = .ok s m g)
    (hprobe : probe = some p) (h80 : 80 < p.contextPct)
    (h1 : m ≠ "send") (h2 : m ≠ "steer") (h3 : m ≠ "stop-and-send")
    (h4 : m ≠ "queue") (h5 : m ≠ "compact") :
    runHandler env probe now =
      [Event.fsWrite .warn (contextWarnNote p.contextPct p.patch) (!env.writeThrows .warn),
       Event.fsWrite .err (unknownModeReason m) (!env.writeThrows .err),
       Event.unlinkMsg (!env.unlinkThrows)] ∧
    Event.fsWrite .warn (contextWarnNote p.contextPct p.patch) (!env.writeThrows .warn)
      ∈ runHandler env probe now ∧
    Event.fsWrite .err (unknownModeReason m) (!env.writeThrows .err)
      ∈ runHandler env probe now := by
  have hnb : ∀ q, probe = some q → ¬(95 < q.contextPct ∧ m = "steer") :=
    fun q _ hc => h2 hc.2
  have ht := runHandler_not_blocked env probe now raw s m g hr hp hnb
  have hwp : warnPrefix env probe =
      [Event.fsWrite .warn (contextWarnNote p.contextPct p.patch) (!env.writeThrows .warn)] := by
    rw [hprobe]
    simp [warnPrefix, h80, writeWarn]
  have hu := runCaught_dispatch_unknown env s m g now h1 h2 h3 h4 h5
  have hfull : runHandler env probe now =
      [Event.fsWrite .warn (contextWarnNote p.contextPct p.patch) (!env.writeThrows .warn),
       Event.fsWrite .err (unknownModeReason m) (!env.writeThrows .err),
       Event.unlinkMsg (!env.unlinkThrows)] := by
    rw [ht, hwp, hu]
    rfl
  refine ⟨hfull, ?_, ?_⟩ <;> rw [hfull] <;> simp

/-- C10 witness: mode `frobnicate` under advisory `context_pct = 85`
writes both the warning and the errored artifact. -/
theorem claim10_witness :
    runHandler (cleanEnv "sess1234|frobnicate|hi")
        (some (ContextProbe.mk 85 10 42 "running")) "T" =
      [Event.fsWrite .warn (contextWarnNote 85 10) true,
       Event.fsWrite .err (unknownModeReason "frobnicate") true,
       Event.unlinkMsg true] := by
  have h := claim10_warn_with_errored (cleanEnv "sess1234|frobnicate|hi")
      (some (ContextProbe.mk 85 10 42 "running")) "T" "sess1234|frobnicate|hi"
      "sess1234" "frobnicate" "hi" (ContextProbe.mk 85 10 42 "running")
      rfl (by decide) rfl (by decide)
      (by decide) (by decide) (by decide) (by decide) (by decide)
  rw [h.1]
  rfl

end Hermes
